import Mathlib

/-
Verification of the attendance exit-scanner routines in app.py: the record
reconciliation routine process_student_exit and the aggregation routine
get_exit_statistics, over a shallow embedding of the spreadsheet store.
-/

namespace App

/-- A spreadsheet cell value as returned by the sheets client: either a
string or an integer number, matching the dynamic typing of the row
dictionaries in app.py. -/
inductive CellValue where
  | s (v : String)
  | n (v : Int)
deriving DecidableEq

/-- Python truthiness of a cell value, as used by the checks
`if not entry_status` and `if not exit_status` in app.py: a string is falsy
exactly when empty, a number exactly when zero. -/
def pyTruthy : CellValue → Bool
  | .s v => !(v == "")
  | .n v => !(v == 0)

/-- Python string coercion `str(x)` of a cell value, as used by the
identifier comparison `str(row["ID"]) == str(qr_data)` in app.py; an
integer renders in decimal form. -/
def CellValue.toStr : CellValue → String
  | .s v => v
  | .n v => toString v

/-- Python equality of a cell value with a string literal, as in
`row.get("EntryStatus") == "Entered"`: a number never equals a string. -/
def cellEqStr : CellValue → String → Bool
  | .s v, w => v == w
  | .n _, _ => false

/-- One row of the orientation_passes sheet, columns in fixed positions
ID, Name, Branch, EntryStatus, EntryTime, ExitStatus, ExitTime. -/
structure StudentRecord where
  id : CellValue
  name : CellValue
  branch : CellValue
  entryStatus : CellValue
  entryTime : CellValue
  exitStatus : CellValue
  exitTime : CellValue
deriving DecidableEq

/-- A broken-down datetime, the result of parsing with format
Y-m-d H:M:S as in datetime.strptime in app.py. -/
structure DT where
  year : Nat
  month : Nat
  day : Nat
  hour : Nat
  minute : Nat
  second : Nat
deriving DecidableEq

/-- Gregorian leap-year test, as in the Python datetime module. -/
def isLeap (y : Nat) : Bool :=
  (y % 4 == 0 && y % 100 != 0) || y % 400 == 0

/-- Number of days in a month of a given year. -/
def daysInMonth (y m : Nat) : Nat :=
  if m = 2 then (if isLeap y then 29 else 28)
  else if m = 4 ∨ m = 6 ∨ m = 9 ∨ m = 11 then 30
  else 31

/-- Validity of a broken-down datetime: the checks the datetime
constructor performs after strptime captures the digit groups. -/
def validDT (t : DT) : Prop :=
  1 ≤ t.year ∧ t.year ≤ 9999 ∧ 1 ≤ t.month ∧ t.month ≤ 12 ∧
  1 ≤ t.day ∧ t.day ≤ daysInMonth t.year t.month ∧
  t.hour ≤ 23 ∧ t.minute ≤ 59 ∧ t.second ≤ 59

instance (t : DT) : Decidable (validDT t) := by
  unfold validDT
  infer_instance

/-- Greedily take up to n leading decimal digits from a character list,
as a strptime digit group does. -/
def takeDigitsAux : Nat → List Char → List Char × List Char
  | 0, cs => ([], cs)
  | _ + 1, [] => ([], [])
  | k + 1, c :: cs =>
    if c.isDigit then
      let (ds, rest) := takeDigitsAux k cs
      (c :: ds, rest)
    else ([], c :: cs)

/-- Numeric value of a list of decimal digit characters. -/
def digitsToNat (ds : List Char) : Nat :=
  ds.foldl (fun a c => a * 10 + (c.toNat - 48)) 0

/-- Parse a digit group of at least one and at most maxDigits digits,
returning its value and the remaining input. -/
def parseNumField (maxDigits : Nat) (cs : List Char) :
    Option (Nat × List Char) :=
  match takeDigitsAux maxDigits cs with
  | ([], _) => none
  | (ds, rest) => some (digitsToNat ds, rest)

/-- Parse the year group: the strptime directive for the year matches
exactly four digits. -/
def parseYearField (cs : List Char) : Option (Nat × List Char) :=
  match takeDigitsAux 4 cs with
  | (ds, rest) => if ds.length = 4 then some (digitsToNat ds, rest) else none

/-- Expect one literal character and consume it. -/
def expectChar (c : Char) : List Char → Option (List Char)
  | [] => none
  | x :: xs => if x = c then some xs else none

/-- ASCII whitespace, the characters a whitespace in a strptime format
string matches one or more of. -/
def isSpaceChar (c : Char) : Bool :=
  c = ' ' || c = '\t' || c = '\n' || c = '\x0b' || c = '\x0c' || c = '\r'

/-- Expect at least one whitespace character and consume the run. -/
def expectSpaces : List Char → Option (List Char)
  | [] => none
  | x :: xs =>
    if isSpaceChar x then some (xs.dropWhile isSpaceChar) else none

/-- Model of datetime.strptime with format Y-m-d H:M:S as called in
app.py: a year group of exactly four digits, the other digit groups of
one or two digits, literal separators, whole-string consumption, then
the datetime validity checks. -/
def parseDT (str : String) : Option DT := do
  let (y, cs) ← parseYearField str.data
  let cs ← expectChar '-' cs
  let (mo, cs) ← parseNumField 2 cs
  let cs ← expectChar '-' cs
  let (d, cs) ← parseNumField 2 cs
  let cs ← expectSpaces cs
  let (h, cs) ← parseNumField 2 cs
  let cs ← expectChar ':' cs
  let (mi, cs) ← parseNumField 2 cs
  let cs ← expectChar ':' cs
  let (sec, cs) ← parseNumField 2 cs
  let t : DT := ⟨y, mo, d, h, mi, sec⟩
  if cs = [] ∧ validDT t then some t else none

/-- Parsing a cell value as a datetime: strptime on a non-string raises,
which the surrounding bare except treats the same as a parse failure. -/
def parseCell : CellValue → Option DT
  | .s v => parseDT v
  | .n _ => none

/-- Days since 1970-01-01 of a Gregorian civil date, the standard
era-based formula; faithful to datetime date arithmetic on valid dates. -/
def daysFromCivil (y m d : Int) : Int :=
  let yy := y - (if m ≤ 2 then 1 else 0)
  let era := yy.fdiv 400
  let yoe := yy - era * 400
  let mp := (m + 9).emod 12
  let doy := (153 * mp + 2).fdiv 5 + d - 1
  let doe := yoe * 365 + yoe.fdiv 4 - yoe.fdiv 100 + doy
  era * 146097 + doe - 719468

/-- Absolute second count of a datetime, so that subtraction of two
datetimes gives total_seconds of the Python timedelta. -/
def dtToSeconds (t : DT) : Int :=
  daysFromCivil t.year t.month t.day * 86400 +
    t.hour * 3600 + t.minute * 60 + t.second

/-- The duration computation of app.py lines 152-163: when the EntryTime
cell is truthy and both it and the exit timestamp parse, report floor
hours and floor minutes of the difference via Python floor division and
modulo; any failure inside is swallowed by the bare except. -/
def durationOf (entryTime : CellValue) (now : String) : Option (Int × Int) :=
  if pyTruthy entryTime then
    match parseCell entryTime, parseDT now with
    | some ed, some xd =>
      let secs := dtToSeconds xd - dtToSeconds ed
      some (secs.fdiv 3600, (secs.fmod 3600).fdiv 60)
    | _, _ => none
  else none

/-- One performed update_cell call: sheet row, column, written value. -/
structure CellWrite where
  row : Nat
  col : Nat
  val : String
deriving DecidableEq

/-- The user-facing result of one exit scan, abstracting the st.error,
st.success, st.warning and st.info messages of app.py. -/
inductive Outcome where
  | rejected (name : CellValue)
  | recorded (name branch : CellValue) (exitTime : String)
      (duration : Option (Int × Int))
  | alreadyDone (name : CellValue) (prevExitTime : CellValue)
  | notFound
  | storeError (msg : String)
deriving DecidableEq

/-- The behaviour of the backing sheet within one call: what
get_all_records returns or raises, and what each update_cell call
returns or raises. -/
structure SheetM where
  fetch : Except String (List StudentRecord)
  write : Nat → Nat → String → Except String Unit

/-- The linear scan of app.py line 128: enumerate(records, start=2) and
stop at the first row whose ID, coerced to string, equals the scanned
identifier coerced to string. -/
def findMatch (qr : String) : List StudentRecord → Nat → Option (Nat × StudentRecord)
  | [], _ => none
  | r :: rs, i =>
    if r.id.toStr = qr then some (i, r) else findMatch qr rs (i + 1)

/-- The loop body of process_student_exit for the matched row at sheet
row i: reject when EntryStatus is falsy; otherwise, when ExitStatus is
falsy or the empty string, write Exited to column 6 and the timestamp to
column 7 (each write may raise, caught by the outer handler); otherwise
report the already-recorded exit. -/
def handleRow (now : String) (sheet : SheetM) (i : Nat)
    (row : StudentRecord) : Outcome × List CellWrite :=
  if !pyTruthy row.entryStatus then
    (.rejected row.name, [])
  else if !pyTruthy row.exitStatus || cellEqStr row.exitStatus "" then
    match sheet.write i 6 "Exited" with
    | .error e => (.storeError e, [])
    | .ok _ =>
      match sheet.write i 7 now with
      | .error e => (.storeError e, [⟨i, 6, "Exited"⟩])
      | .ok _ =>
        (.recorded row.name row.branch now (durationOf row.entryTime now),
         [⟨i, 6, "Exited"⟩, ⟨i, 7, now⟩])
  else
    (.alreadyDone row.name row.exitTime, [])

/-- process_student_exit of app.py lines 122-190: fetch all records
(exceptions become the database-error message), scan for the first ID
match, handle the matched row, or report not found; returns the outcome
together with the list of cell writes actually performed. -/
def process_student_exit (qr_data now : String) (sheet : SheetM) :
    Outcome × List CellWrite :=
  match sheet.fetch with
  | .error e => (.storeError e, [])
  | .ok records =>
    match findMatch qr_data records 2 with
    | none => (.notFound, [])
    | some (i, row) => handleRow now sheet i row

/-- One statistics field: a computed number or the Error sentinel string
of app.py lines 115-120. -/
inductive StatVal where
  | num (v : Int)
  | err
deriving DecidableEq

/-- The four statistics fields returned by get_exit_statistics. -/
structure ExitStats where
  total_entries : StatVal
  total_exits : StatVal
  currently_present : StatVal
  total_students : StatVal
deriving DecidableEq

/-- get_exit_statistics of app.py lines 99-120, over the result of the
get_all_records call: count rows whose EntryStatus equals Entered, rows
whose ExitStatus equals Exited, subtract, take the length; on any
exception in the block return the Error sentinel in all four fields. -/
def get_exit_statistics (fetch : Except String (List StudentRecord)) :
    ExitStats :=
  match fetch with
  | .error _ => ⟨.err, .err, .err, .err⟩
  | .ok records =>
    let te : Int := records.countP (fun r => cellEqStr r.entryStatus "Entered")
    let tx : Int := records.countP (fun r => cellEqStr r.exitStatus "Exited")
    ⟨.num te, .num tx, .num (te - tx), .num records.length⟩

/-- Effect of one update_cell call on a record, by column position. -/
def setCell (r : StudentRecord) (col : Nat) (v : String) : StudentRecord :=
  match col with
  | 1 => { r with id := .s v }
  | 2 => { r with name := .s v }
  | 3 => { r with branch := .s v }
  | 4 => { r with entryStatus := .s v }
  | 5 => { r with entryTime := .s v }
  | 6 => { r with exitStatus := .s v }
  | 7 => { r with exitTime := .s v }
  | _ => r

/-- Effect of one cell write on the stored record list; data rows start
at sheet row 2. -/
def applyWrite (records : List StudentRecord) (w : CellWrite) :
    List StudentRecord :=
  records.mapIdx (fun k r => if k + 2 = w.row then setCell r w.col w.val else r)

/-- Effect of a list of cell writes on the stored record list. -/
def applyWrites (records : List StudentRecord) (ws : List CellWrite) :
    List StudentRecord :=
  ws.foldl applyWrite records

/-- Fixture: a record that shows an exit without ever having entered. -/
def rAlice : StudentRecord :=
  ⟨.s "1", .s "Alice", .s "CSE", .s "", .s "", .s "Exited",
   .s "2025-08-18 10:00:00"⟩

/-- Fixture: a record mid-visit, entered and not yet exited, with a
numeric ID cell. -/
def rBob : StudentRecord :=
  ⟨.n 7, .s "Bob", .s "ECE", .s "Entered", .s "2025-08-18 09:00:00",
   .s "", .s ""⟩

/-- Fixture: a second record carrying the same identifier as rBob. -/
def rBob2 : StudentRecord :=
  ⟨.s "7", .s "Bobby", .s "EEE", .s "", .s "", .s "", .s ""⟩

/-- Fixture: a record that has both entered and exited. -/
def rCarol : StudentRecord :=
  ⟨.s "9", .s "Carol", .s "MEC", .s "Entered", .s "2025-08-18 08:45:00",
   .s "Exited", .s "2025-08-18 10:30:00"⟩

/-- Fixture: a record whose EntryStatus is a non-empty string different
from Entered. -/
def rDave : StudentRecord :=
  ⟨.s "4", .s "Dave", .s "CIV", .s "Attended", .s "", .s "", .s ""⟩

/-- Fixture: rDave after an exit has additionally been recorded. -/
def rDaveOut : StudentRecord :=
  ⟨.s "4", .s "Dave", .s "CIV", .s "Attended", .s "", .s "Exited",
   .s "2025-08-18 10:00:00"⟩

/-- Fixture: an update_cell behaviour whose calls all succeed. -/
def okWrite : Nat → Nat → String → Except String Unit := fun _ _ _ => .ok ()

/-- Fixture sheets for the concrete witnesses. -/
def sheetAlice : SheetM := ⟨.ok [rAlice], okWrite⟩

def sheetBob : SheetM := ⟨.ok [rBob, rBob2], okWrite⟩

def sheetCarol : SheetM := ⟨.ok [rCarol], okWrite⟩

def sheetDave : SheetM := ⟨.ok [rDave], okWrite⟩

/-- Fixture: a sheet whose fetch call raises. -/
def sheetDown : SheetM := ⟨.error "connection reset", okWrite⟩

/-- Fixture: a sheet whose status write (column 6) raises. -/
def sheetBadCol6 : SheetM :=
  ⟨.ok [rBob, rBob2], fun _ c _ => if c = 6 then .error "quota exceeded" else .ok ()⟩

/-- Fixture: a sheet whose timestamp write (column 7) raises. -/
def sheetBadCol7 : SheetM :=
  ⟨.ok [rBob, rBob2], fun _ c _ => if c = 7 then .error "socket closed" else .ok ()⟩

/-- When the fetch raises, the routine reports the database error and
writes nothing. -/
theorem process_fetch_error (qr now : String) {sheet : SheetM} {e : String}
    (h : sheet.fetch = .error e) :
    process_student_exit qr now sheet = (.storeError e, []) := by
  unfold process_student_exit
  simp only [h]

/-- When the scan finds no match, the routine reports not found. -/
theorem process_no_match (now : String) {sheet : SheetM}
    {records : List StudentRecord} {qr : String}
    (hf : sheet.fetch = .ok records)
    (hm : findMatch qr records 2 = none) :
    process_student_exit qr now sheet = (.notFound, []) := by
  unfold process_student_exit
  simp only [hf, hm]

/-- When the scan finds a match, the routine is the row handler on the
matched row. -/
theorem process_match (now : String) {sheet : SheetM}
    {records : List StudentRecord} {qr : String} {i : Nat}
    {r : StudentRecord} (hf : sheet.fetch = .ok records)
    (hm : findMatch qr records 2 = some (i, r)) :
    process_student_exit qr now sheet = handleRow now sheet i r := by
  unfold process_student_exit
  simp only [hf, hm]

/-- The scan returns the first matching row: its position, the success of
its own comparison, and the failure of every earlier comparison. -/
theorem findMatch_mem (qr : String) :
    ∀ (rs : List StudentRecord) (i j : Nat) (r : StudentRecord),
      findMatch qr rs i = some (j, r) →
      i ≤ j ∧ rs.get? (j - i) = some r ∧ r.id.toStr = qr ∧
        ∀ m r', m < j - i → rs.get? m = some r' → r'.id.toStr ≠ qr := by
  intro rs
  induction rs with
  | nil =>
    intro i j r h
    simp [findMatch] at h
  | cons hd tl ih =>
    intro i j r h
    by_cases hid : hd.id.toStr = qr
    · rw [findMatch, if_pos hid] at h
      obtain ⟨hj, hr⟩ : i = j ∧ hd = r := by simpa using h
      subst hj; subst hr
      refine ⟨Nat.le_refl _, by simp, hid, ?_⟩
      intro m r' hm _
      omega
    · rw [findMatch, if_neg hid] at h
      obtain ⟨hle, hget, hqr, hprev⟩ := ih (i + 1) j r h
      refine ⟨by omega, ?_, hqr, ?_⟩
      · have hji : j - i = (j - (i + 1)) + 1 := by omega
        rw [hji]
        simpa using hget
      · intro m r' hm hg
        match m with
        | 0 =>
          have : hd = r' := by simpa using hg
          subst this
          exact hid
        | Nat.succ m' =>
          refine hprev m' r' (by omega) (by simpa using hg)

/-- When no record matches, the scan returns none. -/
theorem findMatch_none (qr : String) :
    ∀ (rs : List StudentRecord) (i : Nat),
      (∀ r ∈ rs, r.id.toStr ≠ qr) → findMatch qr rs i = none := by
  intro rs
  induction rs with
  | nil => intro i _; rfl
  | cons hd tl ih =>
    intro i hall
    rw [findMatch, if_neg (hall hd (by simp))]
    exact ih (i + 1) (fun r hr => hall r (by simp [hr]))

/-- Truthiness of a string cell is non-emptiness. -/
theorem pyTruthy_s_iff (v : String) : pyTruthy (.s v) = true ↔ v ≠ "" := by
  simp [pyTruthy]

/-- The empty string does not parse as a datetime. -/
theorem parseDT_empty : parseDT "" = none := by decide

/-- Closed form of the duration computation when the exit timestamp
parses: it is governed entirely by whether the entry cell parses. -/
theorem durationOf_eq (et : CellValue) (now : String) (nd : DT)
    (hn : parseDT now = some nd) :
    durationOf et now =
      match parseCell et with
      | none => none
      | some ed =>
        some ((dtToSeconds nd - dtToSeconds ed).fdiv 3600,
              ((dtToSeconds nd - dtToSeconds ed).fmod 3600).fdiv 60) := by
  unfold durationOf
  cases et with
  | n v =>
    cases hb : pyTruthy (CellValue.n v) <;> simp [parseCell]
  | s v =>
    by_cases hv : v = ""
    · subst hv
      have : pyTruthy (CellValue.s "") = false := by decide
      rw [this]
      simp [parseCell, parseDT_empty]
    · rw [(pyTruthy_s_iff v).mpr hv]
      cases hc : parseDT v with
      | none => simp [parseCell, hc, hn]
      | some ed => simp [parseCell, hc, hn]

/-- Every write performed by the row handler addresses the matched sheet
row. -/
theorem handleRow_writes_row (now : String) (sheet : SheetM) (i : Nat)
    (row : StudentRecord) :
    ∀ w ∈ (handleRow now sheet i row).2, w.row = i := by
  intro w hw
  unfold handleRow at hw
  split at hw
  · simp at hw
  · split at hw
    · split at hw
      · simp at hw
      · split at hw
        · simp at hw
          subst hw
          rfl
        · simp at hw
          rcases hw with h | h <;> (subst h; rfl)
    · simp at hw

/-- Exhaustive shape of one call: either no write happened and the
outcome is not a successful exit record, or the status write to the
matched row succeeded and the timestamp write raised, or both writes to
the matched row succeeded and the exit was recorded. -/
theorem process_shape (qr now : String) (sheet : SheetM) :
    ((process_student_exit qr now sheet).2 = [] ∧
      ∀ n b t d, (process_student_exit qr now sheet).1 ≠ .recorded n b t d) ∨
    (∃ k r records e, sheet.fetch = .ok records ∧
      findMatch qr records 2 = some (k + 2, r) ∧
      process_student_exit qr now sheet =
        (.storeError e, [⟨k + 2, 6, "Exited"⟩])) ∨
    (∃ k r records, sheet.fetch = .ok records ∧
      findMatch qr records 2 = some (k + 2, r) ∧
      process_student_exit qr now sheet =
        (.recorded r.name r.branch now (durationOf r.entryTime now),
         [⟨k + 2, 6, "Exited"⟩, ⟨k + 2, 7, now⟩])) := by
  cases hf : sheet.fetch with
  | error e =>
    left
    rw [process_fetch_error qr now hf]
    simp
  | ok records =>
    cases hm : findMatch qr records 2 with
    | none =>
      left
      rw [process_no_match now hf hm]
      simp
    | some p =>
      obtain ⟨i, row⟩ := p
      obtain ⟨hle, -, -, -⟩ := findMatch_mem qr records 2 i row hm
      obtain ⟨k, rfl⟩ : ∃ k, i = k + 2 := ⟨i - 2, by omega⟩
      rw [process_match now hf hm]
      unfold handleRow
      split
      · left; simp
      · split
        · cases hw6 : sheet.write (k + 2) 6 "Exited" with
          | error e => left; simp
          | ok u =>
            cases hw7 : sheet.write (k + 2) 7 now with
            | error e =>
              right; left
              exact ⟨k, row, records, e, rfl, hm, rfl⟩
            | ok u2 =>
              right; right
              exact ⟨k, row, records, rfl, hm, rfl⟩
        · left; simp

/-- Claim C1: a matched record whose EntryStatus cell is the empty string
is rejected by the exit scan, with zero cell writes performed. -/
theorem c1_exit_before_entry_rejected (qr now : String) (sheet : SheetM)
    (records : List StudentRecord) (i : Nat) (r : StudentRecord)
    (hf : sheet.fetch = .ok records)
    (hm : findMatch qr records 2 = some (i, r))
    (he : r.entryStatus = .s "") :
    process_student_exit qr now sheet = (.rejected r.name, []) := by
  rw [process_match now hf hm]
  unfold handleRow
  rw [he]
  rfl

/-- Witness for C1: the record of Alice, exit-scanned before any entry,
is rejected without writes. -/
theorem c1_witness :
    process_student_exit "1" "2025-08-18 11:00:00" sheetAlice =
      (.rejected (.s "Alice"), []) :=
  c1_exit_before_entry_rejected "1" "2025-08-18 11:00:00" sheetAlice
    [rAlice] 2 rAlice rfl (by decide) rfl

/-- Counterexample to claim C2 as stated: the record of Alice has
ExitStatus Exited, yet the exit scan of her identifier is rejected
because EntryStatus is unset; it is not reported as already done with
the stored timestamp. -/
theorem c2_counterexample :
    (process_student_exit "1" "2025-08-18 11:00:00" sheetAlice).1 =
        .rejected (.s "Alice") ∧
      (process_student_exit "1" "2025-08-18 11:00:00" sheetAlice).1 ≠
        .alreadyDone (.s "Alice") (.s "2025-08-18 10:00:00") := by
  decide

/-- Claim C2 (amended): for a matched record whose ExitStatus is already
Exited and whose EntryStatus is set, the exit scan reports already done
with the stored exit timestamp, performs no write, and leaves the stored
records unchanged. -/
theorem c2_already_exited_idempotent (qr now : String) (sheet : SheetM)
    (records : List StudentRecord) (i : Nat) (r : StudentRecord)
    (hf : sheet.fetch = .ok records)
    (hm : findMatch qr records 2 = some (i, r))
    (he : pyTruthy r.entryStatus = true)
    (hx : r.exitStatus = .s "Exited") :
    process_student_exit qr now sheet = (.alreadyDone r.name r.exitTime, []) ∧
      applyWrites records (process_student_exit qr now sheet).2 = records := by
  have hp : process_student_exit qr now sheet =
      (.alreadyDone r.name r.exitTime, []) := by
    rw [process_match now hf hm]
    unfold handleRow
    rw [he, hx]
    rfl
  exact ⟨hp, by rw [hp]; rfl⟩

/-- Witness for C2 (amended): the record of Carol, already exited, is
re-scanned idempotently. -/
theorem c2_witness :
    process_student_exit "9" "2025-08-18 11:00:00" sheetCarol =
        (.alreadyDone rCarol.name rCarol.exitTime, []) ∧
      applyWrites [rCarol]
        (process_student_exit "9" "2025-08-18 11:00:00" sheetCarol).2 =
        [rCarol] :=
  c2_already_exited_idempotent "9" "2025-08-18 11:00:00" sheetCarol
    [rCarol] 2 rCarol rfl (by decide) (by decide) rfl

/-- Claim C3: the exit routine processes exactly the first record whose
ID cell, coerced to string, equals the scanned identifier: the matched
record sits at 0-based position i - 2 of the fetched sequence, every
earlier record fails the string comparison, every performed write
addresses sheet row i of the match, and a numeric ID cell coerces to its
decimal rendering. -/
theorem c3_first_match_wins (qr now : String) (sheet : SheetM)
    (records : List StudentRecord) (i : Nat) (r : StudentRecord)
    (hf : sheet.fetch = .ok records)
    (hm : findMatch qr records 2 = some (i, r)) :
    2 ≤ i ∧ records.get? (i - 2) = some r ∧ r.id.toStr = qr ∧
      (∀ m r', m < i - 2 → records.get? m = some r' → r'.id.toStr ≠ qr) ∧
      (∀ w ∈ (process_student_exit qr now sheet).2, w.row = i) ∧
      (∀ v : Int, CellValue.toStr (.n v) = toString v) := by
  obtain ⟨hle, hget, hqr, hprev⟩ := findMatch_mem qr records 2 i r hm
  refine ⟨hle, hget, hqr, hprev, ?_, fun v => rfl⟩
  rw [process_match now hf hm]
  exact handleRow_writes_row now sheet i r

/-- Witness for C3: the identifier 7 matches the numeric ID cell of the
first of two duplicate rows, and the duplicate is never written. -/
theorem c3_witness :
    2 ≤ 2 ∧ [rBob, rBob2].get? (2 - 2) = some rBob ∧
      rBob.id.toStr = "7" ∧
      (∀ m r', m < 2 - 2 → [rBob, rBob2].get? m = some r' →
        r'.id.toStr ≠ "7") ∧
      (∀ w ∈ (process_student_exit "7" "2025-08-18 11:30:00" sheetBob).2,
        w.row = 2) ∧
      (∀ v : Int, CellValue.toStr (.n v) = toString v) :=
  c3_first_match_wins "7" "2025-08-18 11:30:00" sheetBob [rBob, rBob2]
    2 rBob rfl (by decide)

/-- Claim C4: every store failure is converted at the boundary of the
routine: a raising fetch yields the store-error outcome with its message
and no writes; a raising status write yields the store-error outcome
with no performed write; a raising timestamp write yields the
store-error outcome with only the status write performed. The routine is
a total function, so nothing propagates as an unhandled fault. -/
theorem c4_store_errors_contained (qr now : String) (sheet : SheetM) :
    (∀ e, sheet.fetch = .error e →
      process_student_exit qr now sheet = (.storeError e, [])) ∧
    (∀ e records i r, sheet.fetch = .ok records →
      findMatch qr records 2 = some (i, r) →
      pyTruthy r.entryStatus = true →
      (!pyTruthy r.exitStatus || cellEqStr r.exitStatus "") = true →
      sheet.write i 6 "Exited" = .error e →
      process_student_exit qr now sheet = (.storeError e, [])) ∧
    (∀ e records i r, sheet.fetch = .ok records →
      findMatch qr records 2 = some (i, r) →
      pyTruthy r.entryStatus = true →
      (!pyTruthy r.exitStatus || cellEqStr r.exitStatus "") = true →
      sheet.write i 6 "Exited" = .ok () →
      sheet.write i 7 now = .error e →
      process_student_exit qr now sheet =
        (.storeError e, [⟨i, 6, "Exited"⟩])) := by
  refine ⟨fun e h => process_fetch_error qr now h, ?_, ?_⟩
  · intro e records i r hf hm he hx hw6
    rw [process_match now hf hm]
    unfold handleRow
    rw [he, hx, hw6]
    rfl
  · intro e records i r hf hm he hx hw6 hw7
    rw [process_match now hf hm]
    unfold handleRow
    rw [he, hx, hw6, hw7]
    rfl

/-- Witness for C4: a failing fetch, a failing status write, and a
failing timestamp write are each reported as a store error with the
message of the raised exception. -/
theorem c4_witness :
    process_student_exit "7" "2025-08-18 11:30:00" sheetDown =
        (.storeError "connection reset", []) ∧
      process_student_exit "7" "2025-08-18 11:30:00" sheetBadCol6 =
        (.storeError "quota exceeded", []) ∧
      process_student_exit "7" "2025-08-18 11:30:00" sheetBadCol7 =
        (.storeError "socket closed", [⟨2, 6, "Exited"⟩]) :=
  ⟨(c4_store_errors_contained "7" "2025-08-18 11:30:00" sheetDown).1
      "connection reset" rfl,
   (c4_store_errors_contained "7" "2025-08-18 11:30:00" sheetBadCol6).2.1
      "quota exceeded" [rBob, rBob2] 2 rBob rfl (by decide) (by decide)
      (by decide) rfl,
   (c4_store_errors_contained "7" "2025-08-18 11:30:00" sheetBadCol7).2.2
      "socket closed" [rBob, rBob2] 2 rBob rfl (by decide) (by decide)
      (by decide) rfl rfl⟩

/-- Claim C5: each call performs at most two cell writes, and the
exhaustive shape shows that writes happen only as the status write
Exited to column 6 of the matched row k + 2 optionally followed by the
timestamp write to column 7 of the same row, with two writes exactly on
the successful exit-record branch. -/
theorem c5_write_frame (qr now : String) (sheet : SheetM) :
    (process_student_exit qr now sheet).2.length ≤ 2 ∧
    (((process_student_exit qr now sheet).2 = [] ∧
      ∀ n b t d, (process_student_exit qr now sheet).1 ≠ .recorded n b t d) ∨
    (∃ k r records e, sheet.fetch = .ok records ∧
      findMatch qr records 2 = some (k + 2, r) ∧
      process_student_exit qr now sheet =
        (.storeError e, [⟨k + 2, 6, "Exited"⟩])) ∨
    (∃ k r records, sheet.fetch = .ok records ∧
      findMatch qr records 2 = some (k + 2, r) ∧
      process_student_exit qr now sheet =
        (.recorded r.name r.branch now (durationOf r.entryTime now),
         [⟨k + 2, 6, "Exited"⟩, ⟨k + 2, 7, now⟩]))) := by
  have h := process_shape qr now sheet
  refine ⟨?_, h⟩
  rcases h with ⟨h1, -⟩ | ⟨k, r, records, e, -, -, hp⟩ |
    ⟨k, r, records, -, -, hp⟩
  · rw [h1]
    simp
  · rw [hp]
    simp
  · rw [hp]
    simp

/-- Witness for C5 at a concrete successful exit scan. -/
theorem c5_witness :
    (process_student_exit "7" "2025-08-18 11:30:00" sheetBob).2.length ≤ 2 ∧
    (((process_student_exit "7" "2025-08-18 11:30:00" sheetBob).2 = [] ∧
      ∀ n b t d, (process_student_exit "7" "2025-08-18 11:30:00" sheetBob).1 ≠
        .recorded n b t d) ∨
    (∃ k r records e, sheetBob.fetch = .ok records ∧
      findMatch "7" records 2 = some (k + 2, r) ∧
      process_student_exit "7" "2025-08-18 11:30:00" sheetBob =
        (.storeError e, [⟨k + 2, 6, "Exited"⟩])) ∨
    (∃ k r records, sheetBob.fetch = .ok records ∧
      findMatch "7" records 2 = some (k + 2, r) ∧
      process_student_exit "7" "2025-08-18 11:30:00" sheetBob =
        (.recorded r.name r.branch "2025-08-18 11:30:00"
          (durationOf r.entryTime "2025-08-18 11:30:00"),
         [⟨k + 2, 6, "Exited"⟩, ⟨k + 2, 7, "2025-08-18 11:30:00"⟩]))) :=
  c5_write_frame "7" "2025-08-18 11:30:00" sheetBob

/-- Claim C6: on a fetched sequence the statistics are the count of
records with EntryStatus equal to Entered, the count with ExitStatus
equal to Exited, their difference as currently present, and the length
of the sequence as total students. -/
theorem c6_statistics_identity (records : List StudentRecord) :
    ∃ te tx : Int,
      te = ((records.filter
        (fun r => cellEqStr r.entryStatus "Entered")).length : Int) ∧
      tx = ((records.filter
        (fun r => cellEqStr r.exitStatus "Exited")).length : Int) ∧
      get_exit_statistics (.ok records) =
        ⟨.num te, .num tx, .num (te - tx), .num records.length⟩ := by
  refine ⟨_, _, rfl, rfl, ?_⟩
  unfold get_exit_statistics
  simp [List.countP_eq_length_filter]

/-- Claim C7: an identifier matching no record under string coercion
yields the not-found outcome with zero writes. -/
theorem c7_not_found (qr now : String) (sheet : SheetM)
    (records : List StudentRecord)
    (hf : sheet.fetch = .ok records)
    (hall : ∀ r ∈ records, r.id.toStr ≠ qr) :
    process_student_exit qr now sheet = (.notFound, []) :=
  process_no_match now hf (findMatch_none qr records 2 hall)

/-- Witness for C7: an unknown identifier on the two-record store. -/
theorem c7_witness :
    process_student_exit "nope" "2025-08-18 11:30:00" sheetBob =
      (.notFound, []) :=
  c7_not_found "nope" "2025-08-18 11:30:00" sheetBob [rBob, rBob2]
    rfl (by decide)

/-- Claim C8: on the successful exit-record branch the outcome carries
the duration of the visit; a duration is present exactly when the stored
EntryTime cell parses in the strptime format, in which case it is the
difference of exit and entry rendered as floor hours and floor minutes;
and on the spec example of entry 09:00:00 and exit 11:30:00 of the same
day it is 2 hours 30 minutes. -/
theorem c8_duration_reporting (qr now : String) (sheet : SheetM)
    (records : List StudentRecord) (i : Nat) (r : StudentRecord) (nd : DT)
    (hf : sheet.fetch = .ok records)
    (hm : findMatch qr records 2 = some (i, r))
    (he : pyTruthy r.entryStatus = true)
    (hx : (!pyTruthy r.exitStatus || cellEqStr r.exitStatus "") = true)
    (hw6 : sheet.write i 6 "Exited" = .ok ())
    (hw7 : sheet.write i 7 now = .ok ())
    (hn : parseDT now = some nd) :
    (process_student_exit qr now sheet).1 =
        .recorded r.name r.branch now (durationOf r.entryTime now) ∧
      ((∃ p, durationOf r.entryTime now = some p) ↔
        (∃ ed, parseCell r.entryTime = some ed)) ∧
      (∀ ed, parseCell r.entryTime = some ed →
        durationOf r.entryTime now =
          some ((dtToSeconds nd - dtToSeconds ed).fdiv 3600,
                ((dtToSeconds nd - dtToSeconds ed).fmod 3600).fdiv 60)) ∧
      durationOf (.s "2025-08-18 09:00:00") "2025-08-18 11:30:00" =
        some (2, 30) := by
  have hout : (process_student_exit qr now sheet).1 =
      .recorded r.name r.branch now (durationOf r.entryTime now) := by
    rw [process_match now hf hm]
    unfold handleRow
    rw [he, hx, hw6, hw7]
    rfl
  have hd := durationOf_eq r.entryTime now nd hn
  refine ⟨hout, ?_, ?_, by decide⟩
  · cases hc : parseCell r.entryTime with
    | none =>
      rw [hc] at hd
      simp [hd]
    | some ed =>
      rw [hc] at hd
      exact ⟨fun _ => ⟨ed, rfl⟩, fun _ => ⟨_, hd⟩⟩
  · intro ed hc
    rw [hc] at hd
    exact hd

/-- Witness for C8: the successful exit of Bob at 11:30 after an entry
at 09:00 reports a duration of 2 hours 30 minutes. -/
theorem c8_witness :
    (process_student_exit "7" "2025-08-18 11:30:00" sheetBob).1 =
        .recorded rBob.name rBob.branch "2025-08-18 11:30:00"
          (durationOf rBob.entryTime "2025-08-18 11:30:00") ∧
      ((∃ p, durationOf rBob.entryTime "2025-08-18 11:30:00" = some p) ↔
        (∃ ed, parseCell rBob.entryTime = some ed)) ∧
      (∀ ed, parseCell rBob.entryTime = some ed →
        durationOf rBob.entryTime "2025-08-18 11:30:00" =
          some ((dtToSeconds ⟨2025, 8, 18, 11, 30, 0⟩ - dtToSeconds ed).fdiv
                  3600,
                ((dtToSeconds ⟨2025, 8, 18, 11, 30, 0⟩ -
                  dtToSeconds ed).fmod 3600).fdiv 60)) ∧
      durationOf (.s "2025-08-18 09:00:00") "2025-08-18 11:30:00" =
        some (2, 30) :=
  c8_duration_reporting "7" "2025-08-18 11:30:00" sheetBob [rBob, rBob2]
    2 rBob ⟨2025, 8, 18, 11, 30, 0⟩ rfl (by decide) (by decide) (by decide)
    rfl rfl (by decide)

/-- Claim C9: the statistics fail together: a raising fetch gives the
error sentinel in all four fields, and an error sentinel in any field
implies the all-error result, never a partial mix. -/
theorem c9_stats_fail_together (fetch : Except String (List StudentRecord)) :
    (∀ e, fetch = .error e →
      get_exit_statistics fetch = ⟨.err, .err, .err, .err⟩) ∧
    (((get_exit_statistics fetch).total_entries = .err ∨
      (get_exit_statistics fetch).total_exits = .err ∨
      (get_exit_statistics fetch).currently_present = .err ∨
      (get_exit_statistics fetch).total_students = .err) →
      get_exit_statistics fetch = ⟨.err, .err, .err, .err⟩) := by
  cases fetch with
  | error e => exact ⟨fun _ _ => rfl, fun _ => rfl⟩
  | ok records =>
    constructor
    · intro e h
      exact absurd h (by simp)
    · intro h
      rcases h with h | h | h | h <;> simp [get_exit_statistics] at h

/-- Witness for C9: a raising fetch yields the all-error sentinel. -/
theorem c9_witness :
    get_exit_statistics (.error "quota exceeded") =
      ⟨.err, .err, .err, .err⟩ :=
  (c9_stats_fail_together (.error "quota exceeded")).1 "quota exceeded" rfl

/-- Claim C10: the entered check of the exit routine accepts any
non-empty EntryStatus: a matched record whose EntryStatus is a non-empty
string different from Entered still gets its exit recorded with both
writes, such a status is not counted by the Entered comparison of the
statistics, and on a store holding one such exited record the currently
present figure is minus one. -/
theorem c10_nonentered_status_accepted (qr now : String) (sheet : SheetM)
    (records : List StudentRecord) (i : Nat) (r : StudentRecord)
    (v : String)
    (hf : sheet.fetch = .ok records)
    (hm : findMatch qr records 2 = some (i, r))
    (hv : r.entryStatus = .s v) (hne : v ≠ "") (hnev : v ≠ "Entered")
    (hx : r.exitStatus = .s "")
    (hw6 : sheet.write i 6 "Exited" = .ok ())
    (hw7 : sheet.write i 7 now = .ok ()) :
    process_student_exit qr now sheet =
        (.recorded r.name r.branch now (durationOf r.entryTime now),
         [⟨i, 6, "Exited"⟩, ⟨i, 7, now⟩]) ∧
      cellEqStr r.entryStatus "Entered" = false ∧
      get_exit_statistics (.ok [rDaveOut]) =
        ⟨.num 0, .num 1, .num (-1), .num 1⟩ := by
  have he : pyTruthy r.entryStatus = true := by
    rw [hv]
    exact (pyTruthy_s_iff v).mpr hne
  have hxc : (!pyTruthy r.exitStatus || cellEqStr r.exitStatus "") = true := by
    rw [hx]
    rfl
  refine ⟨?_, ?_, by decide⟩
  · rw [process_match now hf hm]
    unfold handleRow
    rw [he, hxc, hw6, hw7]
    rfl
  · rw [hv]
    simp [cellEqStr, hnev]

/-- Witness for C10: the record of Dave with EntryStatus Attended has
its exit recorded. -/
theorem c10_witness :
    process_student_exit "4" "2025-08-18 11:30:00" sheetDave =
        (.recorded rDave.name rDave.branch "2025-08-18 11:30:00"
          (durationOf rDave.entryTime "2025-08-18 11:30:00"),
         [⟨2, 6, "Exited"⟩, ⟨2, 7, "2025-08-18 11:30:00"⟩]) ∧
      cellEqStr rDave.entryStatus "Entered" = false ∧
      get_exit_statistics (.ok [rDaveOut]) =
        ⟨.num 0, .num 1, .num (-1), .num 1⟩ :=
  c10_nonentered_status_accepted "4" "2025-08-18 11:30:00" sheetDave
    [rDave] 2 rDave "Attended" rfl (by decide) rfl (by decide) (by decide)
    rfl rfl rfl

end App
